import Mathlib

/-!
Verification of the ReactPod unified input-driven controller (src/App.tsx)
against its natural-language specification.

The TypeScript source is shallowly embedded: React state updates become
pure functions on explicit state records, the navigation stack becomes a
`List` of frames (head = top of stack), asynchronous storage reads become
`Except`/`Option` values, and the game's floating-point arithmetic is
idealised over `ℝ`.
-/

namespace ReactPod

/-! ## Playback transport (usePlayback hook, src/App.tsx lines 90-161)

`pause` keeps the media source and the position; `stop` detaches the
source and resets time and duration (lines 148-157).  The queue and the
current track id live outside the hook and are untouched by both. -/

structure TransportState where
  isPlaying : Bool
  currentTime : ℚ
  duration : ℚ
  srcAttached : Bool
  currentTrackId : Option Nat
  playQueue : List Nat
deriving DecidableEq, Repr

/-- `pause` (lines 124-127): `audio.pause(); setIsPlaying(false)`. -/
def pauseTransport (s : TransportState) : TransportState :=
  { s with isPlaying := false }

/-- `stop` (lines 148-157): pause, detach the media source
(`audio.src = ''`), reset `currentTime` and `duration` to 0. -/
def stopTransport (s : TransportState) : TransportState :=
  { s with isPlaying := false, currentTime := 0, duration := 0, srcAttached := false }

/-- The transport effect of the 'Focus' item of the `main` menu
(lines 1404-1407): `if (isPlaying) pause();`. -/
def focusMenuTransport (s : TransportState) : TransportState :=
  if s.isPlaying then pauseTransport s else s

/-- The transport effect of the 'Bounce' item of the `main` menu
(lines 1408-1418): unconditional `stop()`. -/
def bounceMenuTransport (s : TransportState) : TransportState :=
  stopTransport s

/-! ## Track loading (effect on `currentTrackId` change, lines 971-993)

`db.songs.get(id)` is modelled as an `Except` (read failure) of an
`Option` (record present or missing); the record's `fileBlob` is an
`Option` to express a record that carries no playable media. -/

structure StoredSong where
  fileBlob : Option String
deriving DecidableEq, Repr

inductive LoadOutcome where
  /-- `play(URL.createObjectURL(song.fileBlob))` -/
  | play (blob : String)
  /-- `handleNext()` — skip to the following queue entry -/
  | skip
  /-- none of the branches fire: neither play nor skip -/
  | noAction
deriving DecidableEq, Repr

/-- Lines 977-989: `.then(song => { if (song?.fileBlob) play(url); else if
(song === undefined) handleNext(); }).catch(() => handleNext())`. -/
def trackLoadOutcome (read : Except Unit (Option StoredSong)) : LoadOutcome :=
  match read with
  | .error _ => .skip
  | .ok none => .skip
  | .ok (some song) =>
      match song.fileBlob with
      | some blob => .play blob
      | none => .noAction

/-! ## Select press/release race (ClickWheel, lines 271-288)

`handleSelectMouseDown` arms a 500 ms timer whose callback runs the
long-press action and clears the timer ref; `handleSelectMouseUp` runs the
normal select action only when the timer ref is still armed (and cancels
it).  The state is the timer ref (`armed`), the events are the press, the
timer firing, and the release. -/

inductive SelEvent where
  | press
  | timerFire
  | release
deriving DecidableEq, Repr

inductive SelAction where
  | select
  | longPress
deriving DecidableEq, Repr

/-- One event step: returns the new timer-ref state and the actions the
handlers invoke (lines 271-288). -/
def selStep (armed : Bool) : SelEvent → Bool × List SelAction
  | .press => (true, [])
  | .timerFire => if armed then (false, [.longPress]) else (false, [])
  | .release => if armed then (false, [.select]) else (false, [])

/-- Run a sequence of events from a timer-ref state, collecting actions. -/
def selRun (armed : Bool) : List SelEvent → List SelAction
  | [] => []
  | e :: es =>
      let (armed2, acts) := selStep armed e
      acts ++ selRun armed2 es

/-- The event sequence produced by a press at time 0 and a release at time
`t`: the 500 ms timer fires before the release iff `500 ≤ t`; a release
before the threshold cancels the timer (`clearTimeout`), so no fire event
ever follows it. -/
def selEvents (t : Nat) : List SelEvent :=
  if t < 500 then [.press, .release] else [.press, .timerFire, .release]

/-! ## Focus-setting edit view (handleScroll branch, lines 1737-1751)

Scrolling in a `focus-setting-edit/<key>` view adds the direction to the
top frame's `activeIndex` and clamps: 1..10 for `longBreakInterval`,
1..90 for the minute settings.  Back/menu (lines 1288-1293) and select
(lines 1786-1792) commit `activeIndex` as the new setting value. -/

inductive FocusKey where
  | workMinutes
  | shortBreakMinutes
  | longBreakMinutes
  | longBreakInterval
deriving DecidableEq, Repr

/-- One scroll step in the edit view (lines 1740-1748). -/
def editScrollStep (key : FocusKey) (value direction : Int) : Int :=
  let newValue := value + direction
  if key = .longBreakInterval then max 1 (min 10 newValue)
  else max 1 (min 90 newValue)

/-- The value shown (and committed on back/menu or select) after a
sequence of scroll inputs. -/
def editValueAfter (key : FocusKey) (value : Int) (dirs : List Int) : Int :=
  dirs.foldl (editScrollStep key) value

/-- The legal range of an edit value: 1..10 for the interval count,
1..90 for the minute settings. -/
def editInRange (key : FocusKey) (value : Int) : Prop :=
  1 ≤ value ∧ value ≤ (if key = .longBreakInterval then 10 else 90)

/-- A concrete playing transport state used as a witness input. -/
def playingState : TransportState :=
  { isPlaying := true, currentTime := 42, duration := 180,
    srcAttached := true, currentTrackId := some 7, playQueue := [7, 8] }

/-! ## Shuffle queue construction (createPlayAction, lines 1382-1394)

`createPlayAction(songId, queue)` copies the context, and with shuffle on
filters out the selected id, runs an in-place Fisher–Yates pass over the
remainder (downward loop, `j = Math.floor(Math.random() * (i + 1))`,
destructuring swap) and prepends the selected id.  The random draws are
modelled as an oracle `rnd`; the JS draw `⌊random()*(i+1)⌋ ∈ [0, i]` is
`rnd i % (i + 1)`. -/

/-- The JS destructuring swap `[a[i], a[j]] = [a[j], a[i]]`: both reads
happen before either write. -/
def listSwap (l : List Nat) (i j : Nat) : List Nat :=
  (l.set i (l.getD j 0)).set j (l.getD i 0)

/-- The loop `for (i = len - 1; i > 0; i--) swap(i, rnd)`. -/
def fyLoop (rnd : Nat → Nat) : Nat → List Nat → List Nat
  | 0, a => a
  | i + 1, a => fyLoop rnd i (listSwap a (i + 1) (rnd (i + 1) % (i + 2)))

/-- Fisher–Yates over a whole list (loop entered at `length - 1`). -/
def fisherYates (rnd : Nat → Nat) (a : List Nat) : List Nat :=
  fyLoop rnd (a.length - 1) a

/-- The queue installed by `createPlayAction` (lines 1383-1392):
`[songId, ...fisherYates(queue.filter(id => id !== songId))]` with shuffle
on, the context itself with shuffle off. -/
def createPlayQueue (shuffleMode : Bool) (rnd : Nat → Nat) (songId : Nat)
    (queue : List Nat) : List Nat :=
  if shuffleMode then
    songId :: fisherYates rnd (queue.filter (fun id => id ≠ songId))
  else queue

/-! ## Focus timer session cycling (handleSessionEnd, lines 1054-1079) -/

inductive SessionType where
  | work
  | shortBreak
  | longBreak
  | idle
deriving DecidableEq, Repr

structure FocusSettingsM where
  workMinutes : Nat
  shortBreakMinutes : Nat
  longBreakMinutes : Nat
  longBreakInterval : Nat
  tickingSound : Bool
  fullscreenBreak : Bool
  autoStart : Bool
deriving DecidableEq, Repr

structure FocusStateM where
  isActive : Bool
  sessionType : SessionType
  timeRemaining : Nat
  workIntervalsInCycle : Nat
deriving DecidableEq, Repr

/-- The `workMinutes : shortBreakMinutes : longBreakMinutes` ternary used
for the next session's duration (lines 1069-1072). -/
def sessionMinutes (fs : FocusSettingsM) : SessionType → Nat
  | .work => fs.workMinutes
  | .shortBreak => fs.shortBreakMinutes
  | _ => fs.longBreakMinutes

/-- `handleSessionEnd` (lines 1054-1079), restricted to its state effect:
a completed work session increments the interval counter and advances to
`longBreak` (counter reset) when the counter reaches `longBreakInterval`,
else to `shortBreak`; any other completed session advances to `work`.  The
next session starts active iff `autoStart` is configured. -/
def handleSessionEnd (fs : FocusSettingsM) (st : FocusStateM) : FocusStateM :=
  let next :=
    if st.sessionType = .work then
      if st.workIntervalsInCycle + 1 ≥ fs.longBreakInterval then
        (SessionType.longBreak, 0)
      else (SessionType.shortBreak, st.workIntervalsInCycle + 1)
    else (SessionType.work, st.workIntervalsInCycle)
  { isActive := fs.autoStart
    sessionType := next.1
    timeRemaining := sessionMinutes fs next.1 * 60
    workIntervalsInCycle := next.2 }

/-- The state of a work session starting the cycle's `k`-th interval,
as produced by `handleSessionEnd` after a completed break. -/
def workSessionState (fs : FocusSettingsM) (k : Nat) : FocusStateM :=
  { isActive := fs.autoStart, sessionType := .work,
    timeRemaining := fs.workMinutes * 60, workIntervalsInCycle := k }

/-! ## Transport next/prev (handleNext lines 903-918, handlePrev 922-941)

The queue state lives in React state (`playQueue`, `currentTrackId`,
`repeatMode`); `currentTime` comes from the playback hook.  `indexOf`
returning `-1` is modelled by the explicit membership test. -/

inductive RepeatMode where
  | off
  | all
  | one
deriving DecidableEq, Repr

structure PlayerState where
  playQueue : List Nat
  currentTrackId : Option Nat
  repeatMode : RepeatMode
  currentTime : ℚ
deriving DecidableEq, Repr

/-- `handleNext` (lines 903-918): at the last queue position loop to
`queue[0]` when repeat is `all`, else no-op; otherwise advance by one. -/
def handleNextState (s : PlayerState) : PlayerState :=
  match s.currentTrackId with
  | none => s
  | some tid =>
      if s.playQueue.isEmpty then s
      else if tid ∈ s.playQueue then
        let i := s.playQueue.indexOf tid
        if i = s.playQueue.length - 1 then
          if s.repeatMode = .all then
            { s with currentTrackId := s.playQueue.head? }
          else s
        else { s with currentTrackId := s.playQueue[i + 1]? }
      else s

/-- `handlePrev` (lines 922-941): with more than 3 seconds played, reseek
to 0; otherwise mirror `handleNext`'s boundary logic in reverse. -/
def handlePrevState (s : PlayerState) : PlayerState :=
  if 3 < s.currentTime then { s with currentTime := 0 }
  else
    match s.currentTrackId with
    | none => s
    | some tid =>
        if s.playQueue.isEmpty then s
        else if tid ∈ s.playQueue then
          let i := s.playQueue.indexOf tid
          if i = 0 then
            if s.repeatMode = .all then
              { s with currentTrackId := s.playQueue[s.playQueue.length - 1]? }
            else s
          else { s with currentTrackId := s.playQueue[i - 1]? }
        else s

/-! ## View identifiers

The code routes on string view ids, some carrying a parameter after `'/'`
(`'album-songs/<name>'`, `'playlist-songs/<id>'`, `'rated-songs/<n>'`,
`'artist-albums/<name>'`, `'focus-setting-edit/<key>'`).  The routes are
embedded as a sum type carrying the typed parameter. -/

inductive ViewId where
  | load
  | main
  | nowPlaying
  | music
  | playlists
  | focus
  | bounceGame
  | settings
  | focusStats
  | focusSettings
  | focusResetConfirm
  | focusSettingEdit (key : FocusKey)
  | coverFlow
  | songs
  | artists
  | albums
  | ratings
  | search
  | searchResults
  | playlistSongs (playlistId : Nat)
  | ratedSongs (minRating : Nat)
  | albumSongs (album : String)
  | artistAlbums (artist : String)
  | appearance
  | libraryManagement
  | about
  | bodyColor
  | wheelColor
  | clearingLibrary
deriving DecidableEq, Repr

/-! ## Menu resolution (menuItems memo, lines 1381-1607)

The resolver reads the top view id and the current data snapshot and
produces the ordered action list.  The only mutation performed while
*computing* the list is `songs.sort(...)` in the `'songs'` case (line
1520), which sorts the React state array in place; every other case only
copies (`[...new Set(...)]`, `filter`, `map`).  The resolver is therefore
modelled as returning the item list *and* the resulting state.  JS
`Array.prototype.sort` is stable; it is modelled by a stable insertion
sort keyed the way the comparator compares (`a.title.localeCompare`). -/

inductive GamePhase where
  | idle
  | playing
  | paused
  | gameOver
deriving DecidableEq, Repr

structure SongM where
  id : Nat
  title : String
  artist : String
  album : String
  rating : Option Nat
deriving DecidableEq, Repr

structure PlaylistM where
  id : Nat
  name : String
  songIds : List Nat
deriving DecidableEq, Repr

structure MenuItemM where
  label : String
  subtext : Option String := none
  hasArrow : Option Bool := none
  songId : Option Nat := none
deriving DecidableEq, Repr

/-- The snapshot the `menuItems` memo reads (its dependency list,
lines 1605-1607, restricted to the data the cases below consume). -/
structure ResolverState where
  songs : List SongM
  allPlaylists : Option (List PlaylistM)
  searchQuery : String
  shuffleMode : Bool
  repeatMode : RepeatMode
  currentTrackId : Option Nat
  bouncePhase : GamePhase
  focusActive : Bool
  focusSettings : Option FocusSettingsM
  bodyColor : String
  wheelColor : String
deriving DecidableEq, Repr

/-- A song row: title label plus the song reference used by the
long-press quick-add (the rendering-only `ratingDisplay` is omitted). -/
def songItem (song : SongM) : MenuItemM :=
  { label := song.title, songId := some song.id }

/-- `BODY_COLORS` (lines 27-38): name and css class. -/
def bodyColorList : List (String × String) :=
  [("White", "bg-gradient-to-b from-gray-100 to-gray-300"),
   ("Black", "bg-gradient-to-b from-gray-800 to-black"),
   ("Silver", "bg-gradient-to-b from-gray-400 to-gray-600"),
   ("Blue", "bg-gradient-to-b from-blue-300 to-blue-500"),
   ("Gold", "bg-gradient-to-b from-yellow-300 to-yellow-500"),
   ("Green", "bg-gradient-to-b from-green-300 to-green-500"),
   ("Lime", "bg-gradient-to-b from-lime-300 to-lime-500"),
   ("Pink", "bg-gradient-to-b from-pink-300 to-pink-500"),
   ("Purple", "bg-gradient-to-b from-purple-300 to-purple-500"),
   ("Red", "bg-gradient-to-b from-red-400 to-red-600")]

/-- `WHEEL_COLORS` (lines 40-48). -/
def wheelColorList : List (String × String) :=
  [("Gray", "bg-gray-800"), ("Black", "bg-black"), ("Blue", "bg-blue-800"),
   ("Green", "bg-green-700"), ("Orange", "bg-orange-700"),
   ("Purple", "bg-purple-800"), ("Red", "bg-red-700")]

/-- Lexicographic (codepoint) comparison, the order `localeCompare` and
the default JS `sort()` comparator induce on these names. -/
def charListLe : List Char → List Char → Bool
  | [], _ => true
  | _ :: _, [] => false
  | a :: as, b :: bs => if a = b then charListLe as bs else decide (a < b)

/-- String order used by the menu sorts. -/
def strLe (a b : String) : Bool :=
  charListLe a.toList b.toList

/-- The `'songs'` comparator `(a, b) => a.title.localeCompare(b.title)`. -/
def titleLe (a b : SongM) : Prop :=
  strLe a.title b.title = true

instance : DecidableRel titleLe := fun a b => by
  unfold titleLe
  exact instDecidableEqBool _ _

/-- The plain-string order used by `.sort()` on artist and album names. -/
def strOrd (a b : String) : Prop :=
  strLe a b = true

instance : DecidableRel strOrd := fun a b => by
  unfold strOrd
  exact instDecidableEqBool _ _

/-- Does `hay` start with `needle`? -/
def charsStartWith : List Char → List Char → Bool
  | _, [] => true
  | [], _ :: _ => false
  | h :: hs, n :: ns => h == n && charsStartWith hs ns

/-- Does `hay` contain `needle` as a contiguous run (JS `includes`)? -/
def charsContain : List Char → List Char → Bool
  | [], needle => needle.isEmpty
  | h :: t, needle => charsStartWith (h :: t) needle || charsContain t needle

/-- JS `String.prototype.includes`. -/
def strContains (hay needle : String) : Bool :=
  charsContain hay.toList needle.toList

/-- The `'★'.repeat(r) + '☆'.repeat(5 - r)` rating row label. -/
def starLabel (r : Nat) : String :=
  String.mk (List.replicate r '★' ++ List.replicate (5 - r) '☆')

/-- `Repeat: ` label suffix (`charAt(0).toUpperCase() + slice(1)`). -/
def repeatLabel : RepeatMode → String
  | .off => "Off"
  | .all => "All"
  | .one => "One"

/-- A focus setting rendered for a subtext (`${focusSettings?.x}`; the JS
interpolation renders `undefined` when the record is not yet loaded). -/
def settingText (fs : Option FocusSettingsM) (f : FocusSettingsM → Nat) : String :=
  match fs with
  | some fs => toString (f fs)
  | none => "undefined"

/-- A focus toggle rendered `On`/`Off` (`undefined` is falsy). -/
def toggleText (fs : Option FocusSettingsM) (f : FocusSettingsM → Bool) : String :=
  match fs with
  | some fs => if f fs then "On" else "Off"
  | none => "Off"

/-- The `menuItems` switch (lines 1399-1604): the resolved action list and
the state it leaves behind.  Every case leaves the snapshot unchanged
except `'songs'`, whose in-place `songs.sort` replaces the songs array by
its sorted self. -/
def menuResolve (view : ViewId) (st : ResolverState) : List MenuItemM × ResolverState :=
  match view with
  | .main =>
      ([{ label := "Now Playing", hasArrow := some st.currentTrackId.isSome },
        { label := "Music", hasArrow := some true },
        { label := "Playlists", hasArrow := some true },
        { label := "Focus", hasArrow := some true },
        { label := "Bounce", hasArrow := some true },
        { label := "Settings", hasArrow := some true }], st)
  | .focus =>
      ([{ label := if st.focusActive then "Pause" else "Start" },
        { label := "Skip Session" },
        { label := "Stats", hasArrow := some true },
        { label := "Settings", hasArrow := some true }], st)
  | .focusSettings =>
      ([{ label := "Work Duration",
          subtext := some (settingText st.focusSettings (·.workMinutes) ++ " min"),
          hasArrow := some true },
        { label := "Short Break",
          subtext := some (settingText st.focusSettings (·.shortBreakMinutes) ++ " min"),
          hasArrow := some true },
        { label := "Long Break",
          subtext := some (settingText st.focusSettings (·.longBreakMinutes) ++ " min"),
          hasArrow := some true },
        { label := "Intervals",
          subtext := some (settingText st.focusSettings (·.longBreakInterval)),
          hasArrow := some true },
        { label := "Auto Start: " ++ toggleText st.focusSettings (·.autoStart) },
        { label := "Fullscreen Break: " ++ toggleText st.focusSettings (·.fullscreenBreak) },
        { label := "Reset Stats", hasArrow := some true }], st)
  | .focusResetConfirm =>
      ([{ label := "No, Cancel" }, { label := "Yes, Reset All Stats" }], st)
  | .bounceGame =>
      ((match st.bouncePhase with
        | .idle => [{ label := "Start Game" }]
        | .gameOver => [{ label := "Play Again" }, { label := "Exit" }]
        | _ => []), st)
  | .music =>
      ([{ label := "Cover Flow", hasArrow := some true },
        { label := "Songs", hasArrow := some true },
        { label := "Artists", hasArrow := some true },
        { label := "Albums", hasArrow := some true },
        { label := "Ratings", hasArrow := some true },
        { label := "Search", hasArrow := some true }], st)
  | .playlists =>
      ((match st.allPlaylists with
        | none => []
        | some pls =>
            (match pls.find? (fun p => p.name == "On-The-Go") with
             | some otg =>
                 [{ label := "On-The-Go",
                    subtext := some (toString otg.songIds.length),
                    hasArrow := some true }]
             | none => []) ++
            (pls.filter (fun p => p.name ≠ "On-The-Go")).map (fun p =>
              { label := p.name, subtext := some (toString p.songIds.length),
                hasArrow := some true })), st)
  | .playlistSongs pid =>
      ((match st.allPlaylists with
        | none => []
        | some pls =>
            match pls.find? (fun p => p.id == pid) with
            | none => []
            | some p =>
                (p.songIds.filterMap (fun id =>
                  st.songs.find? (fun s => s.id == id))).map songItem), st)
  | .songs =>
      let sorted := List.insertionSort titleLe st.songs
      (sorted.map songItem, { st with songs := sorted })
  | .searchResults =>
      ((if st.searchQuery.toLower.trim = "" then []
        else
          (st.songs.filter (fun s =>
            strContains s.title.toLower (st.searchQuery.toLower.trim) ||
            strContains s.artist.toLower (st.searchQuery.toLower.trim) ||
            strContains s.album.toLower (st.searchQuery.toLower.trim))).map songItem), st)
  | .ratedSongs minRating =>
      ((st.songs.filter (fun s => minRating ≤ s.rating.getD 0)).map songItem, st)
  | .albumSongs album =>
      ((st.songs.filter (fun s => s.album == album)).map songItem, st)
  | .artists =>
      ((List.insertionSort strOrd
          (st.songs.map (·.artist)).eraseDups).map (fun artist =>
        { label := artist, hasArrow := some true }), st)
  | .artistAlbums artist =>
      ((List.insertionSort strOrd
          ((st.songs.filter (fun s => s.artist == artist)).map (·.album)).eraseDups).map
        (fun album => { label := album, hasArrow := some true }), st)
  | .albums =>
      ((List.insertionSort strOrd
          (st.songs.map (·.album)).eraseDups).map (fun album =>
        { label := album, hasArrow := some true }), st)
  | .ratings =>
      ([5, 4, 3, 2, 1].map (fun r => { label := starLabel r, hasArrow := some true }), st)
  | .settings =>
      ([{ label := "Shuffle: " ++ (if st.shuffleMode then "On" else "Off") },
        { label := "Repeat: " ++ repeatLabel st.repeatMode },
        { label := "Appearance", hasArrow := some true },
        { label := "Library Management", hasArrow := some true },
        { label := "About", hasArrow := some true }], st)
  | .libraryManagement =>
      ([{ label := "Add Music", hasArrow := some true },
        { label := "Clear Library", hasArrow := some true }], st)
  | .appearance =>
      ([{ label := "iPod Body", hasArrow := some true },
        { label := "Click Wheel", hasArrow := some true },
        { label := "Reset to Default" }], st)
  | .bodyColor =>
      (bodyColorList.map (fun c =>
        { label := c.1,
          hasArrow := if st.bodyColor == c.2 then some false else none,
          subtext := some (if st.bodyColor == c.2 then "✓" else "") }), st)
  | .wheelColor =>
      (wheelColorList.map (fun c =>
        { label := c.1,
          hasArrow := if st.wheelColor == c.2 then some false else none,
          subtext := some (if st.wheelColor == c.2 then "✓" else "") }), st)
  | .search =>
      (("ABCDEFGHIJKLMNOPQRSTUVWXYZ0123456789".toList.map (fun c =>
          ({ label := String.mk [c] } : MenuItemM))) ++
        [{ label := "Space" }, { label := "Delete" },
         { label := "Done", hasArrow := some true }], st)
  | _ => ([], st)

/-- A concrete snapshot whose songs array is not title-sorted. -/
def unsortedState : ResolverState :=
  { songs := [{ id := 1, title := "b", artist := "x", album := "y", rating := none },
              { id := 2, title := "a", artist := "x", album := "y", rating := none }],
    allPlaylists := none, searchQuery := "", shuffleMode := false,
    repeatMode := .off, currentTrackId := none, bouncePhase := .idle,
    focusActive := false, focusSettings := none, bodyColor := "",
    wheelColor := "" }

/-! ## Navigation stack (lines 831, 1288-1310, resolver push actions)

The stack is a list of frames, head = top.  Every `setNavigationStack`
call site in the source is a transition: the guarded back-pop of
`handleMenuClick` (lines 1307-1309), the push performed by each menu
action (guarded by the view whose resolved menu carries that action), the
one-frame commit-pop of select in an edit view (line 1790, synchronous, so
guarded by the edit view being on top), the whole-stack replacements of
`initializeApp` and `handleFileChange` (lines 1134, 1136, 1246), and the
`activeIndex`-only updates of scrolling (lines 1748, 1781).

Crucially, three mutations are *delayed* and run with no guard on the
stack they will find: the 'Yes, Reset All Stats' action awaits two storage
calls and only then runs `s.slice(0, -2)` (lines 1438-1442), and the
clear-library flow pushes the clearing view synchronously (line 1313) but
then, from its async continuation, either schedules `s.slice(0, -1)` on a
2000 ms timeout (empty-library path, lines 1320-1326; error path, lines
1358-1364) or schedules the `[load]` replacement on a 2500 ms timeout
(success path, lines 1353-1356).  While such a callback is pending, BACK
stays active and keeps popping; when the callback fires it slices whatever
stack is current.  The state therefore carries the stack plus the counts
of pending delayed mutations. -/

structure Frame where
  id : ViewId
  activeIndex : Int
deriving DecidableEq, Repr

/-- Which view can be pushed while which view is on top — one entry per
push action in the `menuItems` switch and in `handleSelectClick`
(cover-flow, line 1803) and `handleClearLibrary` (line 1313). -/
def canPush (u v : ViewId) : Bool :=
  match u, v with
  | .main, .nowPlaying | .main, .music | .main, .playlists
  | .main, .focus | .main, .bounceGame | .main, .settings => true
  | .music, .coverFlow | .music, .songs | .music, .artists
  | .music, .albums | .music, .ratings | .music, .search => true
  | .playlists, .playlistSongs _ => true
  | .focus, .focusStats | .focus, .focusSettings => true
  | .focusSettings, .focusSettingEdit _ | .focusSettings, .focusResetConfirm => true
  | .settings, .appearance | .settings, .libraryManagement | .settings, .about => true
  | .libraryManagement, .load | .libraryManagement, .clearingLibrary => true
  | .appearance, .bodyColor | .appearance, .wheelColor => true
  | .ratings, .ratedSongs _ => true
  | .artists, .artistAlbums _ => true
  | .artistAlbums _, .albumSongs _ => true
  | .albums, .albumSongs _ => true
  | .coverFlow, .albumSongs _ => true
  | .search, .searchResults => true
  | _, _ => false

/-- `handleMenuClick`'s stack effect (lines 1307-1309): pop only when more
than one frame remains. -/
def menuPop (s : List Frame) : List Frame :=
  if 1 < s.length then s.tail else s

/-- The navigation state: the stack, plus the pending delayed mutations —
clear-library timeout pops (`s.slice(0, -1)`, lines 1322-1324 and
1361-1363), reset-stats post-await two-frame pops (`s.slice(0, -2)`, line
1441), and clear-library success replacements (`[load]`, lines
1353-1356).  A pending mutation fires later against whatever stack is then
current, with no guard. -/
structure NavState where
  stack : List Frame
  pendingClearPops : Nat
  pendingResetPops : Nat
  pendingLoadReplaces : Nat
deriving DecidableEq, Repr

/-- One navigation transition of the controller. -/
inductive NavStep : NavState → NavState → Prop where
  /-- A menu action pushes a view onto the stack (`setNavigationStack(s =>
  [...s, frame])`), available only while its menu's view is on top. -/
  | selectPush (f : Frame) (v : ViewId) (s : List Frame) (a b c : Nat) :
      canPush f.id v = true →
      NavStep ⟨f :: s, a, b, c⟩ ⟨{ id := v, activeIndex := 0 } :: f :: s, a, b, c⟩
  /-- The guarded back/menu pop, available at any time. -/
  | backPop (s : List Frame) (a b c : Nat) :
      NavStep ⟨s, a, b, c⟩ ⟨menuPop s, a, b, c⟩
  /-- Select in an edit view commits and pops one frame (line 1790,
  synchronous, so the edit view is still on top). -/
  | editCommitPop (f : Frame) (k : FocusKey) (s : List Frame) (a b c : Nat) :
      f.id = .focusSettingEdit k → NavStep ⟨f :: s, a, b, c⟩ ⟨s, a, b, c⟩
  /-- Invoking 'Yes, Reset All Stats' (only offered while
  `focus-reset-confirm` is on top) starts the awaits of line 1439-1440; the
  two-frame pop is now pending. -/
  | resetStatsArm (f : Frame) (s : List Frame) (a b c : Nat) :
      f.id = .focusResetConfirm →
      NavStep ⟨f :: s, a, b, c⟩ ⟨f :: s, a, b + 1, c⟩
  /-- A pending reset-stats continuation fires: `s.slice(0, -2)` (line
  1441) on whatever stack is current. -/
  | resetStatsFire (s : List Frame) (a b c : Nat) :
      NavStep ⟨s, a, b + 1, c⟩ ⟨s.tail.tail, a, b, c⟩
  /-- Invoking 'Clear Library' on an empty library (or hitting the error
  path): the clearing view is pushed (line 1313) and the async
  continuation schedules `s.slice(0, -1)` on a 2000 ms timeout (lines
  1322-1324 / 1361-1363). -/
  | clearInvokeEmpty (f : Frame) (s : List Frame) (a b c : Nat) :
      f.id = .libraryManagement →
      NavStep ⟨f :: s, a, b, c⟩
        ⟨{ id := .clearingLibrary, activeIndex := 0 } :: f :: s, a + 1, b, c⟩
  /-- Invoking 'Clear Library' on a nonempty library: the clearing view is
  pushed and the success path schedules the `[load]` replacement on a
  2500 ms timeout (lines 1353-1356). -/
  | clearInvokeSuccess (f : Frame) (s : List Frame) (a b c : Nat) :
      f.id = .libraryManagement →
      NavStep ⟨f :: s, a, b, c⟩
        ⟨{ id := .clearingLibrary, activeIndex := 0 } :: f :: s, a, b, c + 1⟩
  /-- A pending clear-library timeout fires: `s.slice(0, -1)` on whatever
  stack is current — no guard. -/
  | clearPopFire (s : List Frame) (a b c : Nat) :
      NavStep ⟨s, a + 1, b, c⟩ ⟨s.tail, a, b, c⟩
  /-- A pending clear-library success timeout fires: the stack becomes
  `[load]` (line 1354). -/
  | loadReplaceFire (s : List Frame) (a b c : Nat) :
      NavStep ⟨s, a, b, c + 1⟩ ⟨[{ id := .load, activeIndex := 0 }], a, b, c⟩
  /-- `initializeApp` / `handleFileChange` replace the whole stack by a
  single `main` or `load` frame (lines 1134, 1136, 1246). -/
  | initReplace (s : List Frame) (v : ViewId) (a b c : Nat) :
      v = .main ∨ v = .load →
      NavStep ⟨s, a, b, c⟩ ⟨[{ id := v, activeIndex := 0 }], a, b, c⟩
  /-- Scrolling updates only the top frame's `activeIndex` (lines 1748,
  1781). -/
  | scrollTop (f : Frame) (x : Int) (s : List Frame) (a b c : Nat) :
      NavStep ⟨f :: s, a, b, c⟩ ⟨{ f with activeIndex := x } :: s, a, b, c⟩

/-- States reachable from the initial `[{ id: 'load', activeIndex: 0 }]`
(line 831) with nothing pending. -/
def navReachable (t : NavState) : Prop :=
  Relation.ReflTransGen NavStep
    { stack := [{ id := .load, activeIndex := 0 }], pendingClearPops := 0,
      pendingResetPops := 0, pendingLoadReplaces := 0 } t

/-! ## Bounce game tick (gameLoop, lines 1628-1717)

The per-frame update, idealised over `ℝ`: integrate the ball, compare the
distance from center against the arena radius (`47.5`, line 1635); on a
crossing, test the ball's angular position against the paddle arc; a hit
bumps the score, multiplies the speed by 1.03 capped at 2.5, reflects the
velocity and repositions the ball just inside the boundary; a miss moves
to game-over and persists the high score monotonically. -/

structure BallState where
  x : ℝ
  y : ℝ
  dx : ℝ
  dy : ℝ

structure BounceGameState where
  gameState : GamePhase
  score : Nat
  highScore : Nat
  paddleAngle : ℝ
  ball : BallState
  ballSpeed : ℝ

/-- JS `Math.atan2(y, x)`, with values in `(-π, π]`. -/
noncomputable def atan2 (y x : ℝ) : ℝ :=
  if 0 < x then Real.arctan (y / x)
  else if x < 0 ∧ 0 ≤ y then Real.arctan (y / x) + Real.pi
  else if x < 0 ∧ y < 0 then Real.arctan (y / x) - Real.pi
  else if x = 0 ∧ 0 < y then Real.pi / 2
  else if x = 0 ∧ y < 0 then -(Real.pi / 2)
  else 0

/-- JS `%`, at the nonnegative arguments used here (`(x + 360) % 360`
with `x > -360`, so dividend and divisor are positive and JS truncation
agrees with the floor). -/
noncomputable def jsMod (a b : ℝ) : ℝ :=
  a - b * (⌊a / b⌋ : ℤ)

/-- Lines 1638-1640: `newBall.x += dx * ballSpeed; newBall.y += dy *
ballSpeed`. -/
noncomputable def integratedBall (s : BounceGameState) : BallState :=
  { s.ball with
    x := s.ball.x + s.ball.dx * s.ballSpeed,
    y := s.ball.y + s.ball.dy * s.ballSpeed }

/-- Line 1642: `Math.sqrt(x*x + y*y)`. -/
noncomputable def distFromCenter (b : BallState) : ℝ :=
  Real.sqrt (b.x * b.x + b.y * b.y)

/-- Lines 1647-1648: the ball's angular position in screen degrees. -/
noncomputable def ballAngleDegrees (b : BallState) : ℝ :=
  jsMod (atan2 b.y b.x * (180 / Real.pi) + 90 + 360) 360

/-- Lines 1650-1655: is the ball's angle inside the paddle's 45° arc
(handling an arc that straddles 0°)? -/
noncomputable def isHit (paddleAngle : ℝ) (b : BallState) : Bool :=
  let a := ballAngleDegrees b
  let ps := jsMod (paddleAngle - 45 / 2 + 360) 360
  let pe := jsMod (paddleAngle + 45 / 2 + 360) 360
  if ps < pe then decide (ps ≤ a) && decide (a ≤ pe)
  else decide (ps ≤ a) || decide (a ≤ pe)

/-- Lines 1662-1677: the reflected, repositioned ball after a hit —
deflection scaled from the hit offset into `±π/3.5` around the impact
normal, position snapped to radius `47.5 - 0.1` along the impact
normal. -/
noncomputable def hitBall (paddleAngle : ℝ) (nb : BallState) : BallState :=
  let ballAngle := ballAngleDegrees nb
  let r0 := ballAngle - paddleAngle
  let r1 := if r0 > 180 then r0 - 360 else r0
  let r2 := if r1 < -180 then r1 + 360 else r1
  let deflectionFactor := r2 / (45 / 2)
  let impactNormalRad := atan2 (-nb.y) (-nb.x)
  let finalAngleRad := impactNormalRad + deflectionFactor * (Real.pi / 3.5)
  let normalAngleRad := atan2 nb.y nb.x
  { x := (47.5 - 0.1) * Real.cos normalAngleRad,
    y := (47.5 - 0.1) * Real.sin normalAngleRad,
    dx := Real.cos finalAngleRad,
    dy := Real.sin finalAngleRad }

/-- One `gameLoop` tick while the game view is active (lines 1630-1708),
restricted to its game-state effect. -/
noncomputable def bounceTick (s : BounceGameState) : BounceGameState :=
  if s.gameState = .playing then
    if distFromCenter (integratedBall s) > 47.5 then
      if isHit s.paddleAngle (integratedBall s) then
        { s with
          score := s.score + 1,
          ballSpeed := min 2.5 (s.ballSpeed * 1.03),
          ball := hitBall s.paddleAngle (integratedBall s) }
      else
        { s with
          gameState := .gameOver,
          highScore := if s.highScore < s.score then s.score else s.highScore,
          ball := integratedBall s }
    else { s with ball := integratedBall s }
  else s

/-- No boundary event: the integrated ball stayed inside the arena and the
tick only moved the ball. -/
def tickNoEvent (s : BounceGameState) : Prop :=
  distFromCenter (integratedBall s) ≤ 47.5 ∧
  bounceTick s = { s with ball := integratedBall s }

/-- Hit: the boundary was crossed inside the paddle arc — score up by
exactly 1, speed multiplied by 1.03 capped at 2.5, phase still playing,
ball repositioned strictly inside the boundary. -/
def tickHit (s : BounceGameState) : Prop :=
  47.5 < distFromCenter (integratedBall s) ∧
  isHit s.paddleAngle (integratedBall s) = true ∧
  (bounceTick s).score = s.score + 1 ∧
  (bounceTick s).ballSpeed = min 2.5 (s.ballSpeed * 1.03) ∧
  (bounceTick s).gameState = .playing ∧
  distFromCenter (bounceTick s).ball = 47.5 - 0.1 ∧
  distFromCenter (bounceTick s).ball < 47.5

/-- Miss: the boundary was crossed outside the paddle arc — transition to
game-over, score unchanged, high score bumped monotonically. -/
def tickMiss (s : BounceGameState) : Prop :=
  47.5 < distFromCenter (integratedBall s) ∧
  isHit s.paddleAngle (integratedBall s) = false ∧
  (bounceTick s).gameState = .gameOver ∧
  (bounceTick s).score = s.score ∧
  (bounceTick s).highScore = max s.highScore s.score ∧
  (bounceTick s).ballSpeed = s.ballSpeed

/-- The tick resolves to exactly one of the three outcomes. -/
def tickExactlyOne (s : BounceGameState) : Prop :=
  (tickNoEvent s ∧ ¬ tickHit s ∧ ¬ tickMiss s) ∨
  (tickHit s ∧ ¬ tickNoEvent s ∧ ¬ tickMiss s) ∨
  (tickMiss s ∧ ¬ tickNoEvent s ∧ ¬ tickHit s)

/-! # Theorems -/

/-! ### Helper lemmas for list swapping and Fisher-Yates -/

/-- Replacing the `k`-th element: the removed element plus the new list is
a permutation of the new element plus the old list. -/
theorem getElem_cons_set_perm (xs : List Nat) (k : Nat) (h : k < xs.length)
    (x : Nat) : (xs[k] :: xs.set k x).Perm (x :: xs) := by
  induction xs generalizing k with
  | nil => simp at h
  | cons a t ih =>
      cases k with
      | zero => simpa using List.Perm.swap x a t
      | succ k =>
          have hk : k < t.length := by simpa using h
          have s1 : (t[k] :: a :: t.set k x).Perm (a :: t[k] :: t.set k x) :=
            List.Perm.swap a (t[k]) (t.set k x)
          have s2 : (a :: t[k] :: t.set k x).Perm (a :: x :: t) := (ih k hk).cons a
          have s3 : (a :: x :: t).Perm (x :: a :: t) := List.Perm.swap x a t
          exact (s1.trans s2).trans s3

/-- Writing back the element already in place is a no-op. -/
theorem set_getD_self (l : List Nat) (i : Nat) : l.set i (l.getD i 0) = l := by
  induction l generalizing i with
  | nil => rfl
  | cons a t ih =>
      cases i with
      | zero => rfl
      | succ i => simpa using ih i

/-- A swap of two in-bounds positions is a permutation. -/
theorem listSwap_perm (l : List Nat) (i j : Nat) (hi : i < l.length)
    (hj : j < l.length) : (listSwap l i j).Perm l := by
  by_cases hij : i = j
  · subst hij
    unfold listSwap
    rw [set_getD_self, set_getD_self]
  · have hdi : l.getD i 0 = l[i] := List.getD_eq_getElem l 0 hi
    have hdj : l.getD j 0 = l[j] := List.getD_eq_getElem l 0 hj
    have hswap_eq : listSwap l i j = (l.set i l[j]).set j l[i] := by
      unfold listSwap
      rw [hdi, hdj]
    have hj2 : j < (l.set i l[j]).length := by
      rw [List.length_set]
      exact hj
    have h1 : ((l.set i l[j])[j] :: (l.set i l[j]).set j l[i]).Perm
        (l[i] :: l.set i l[j]) :=
      getElem_cons_set_perm _ j hj2 _
    have hget : (l.set i l[j])[j] = l[j] :=
      List.getElem_set_ne (by omega) hj2
    have h2 : (l[i] :: l.set i l[j]).Perm (l[j] :: l) := by
      have h := getElem_cons_set_perm l i hi (l[j])
      exact h
    rw [hget] at h1
    have h3 : (l[j] :: listSwap l i j).Perm (l[j] :: l) := by
      rw [hswap_eq]
      exact h1.trans h2
    exact h3.cons_inv

/-- The Fisher–Yates loop permutes its input. -/
theorem fyLoop_perm (rnd : Nat → Nat) :
    ∀ (i : Nat) (a : List Nat), i < a.length → (fyLoop rnd i a).Perm a := by
  intro i
  induction i with
  | zero => intro a _; exact List.Perm.refl a
  | succ i ih =>
      intro a h
      have hj : rnd (i + 1) % (i + 2) < a.length :=
        lt_of_le_of_lt (Nat.le_of_lt_succ (Nat.mod_lt _ (by omega))) h
      have hswap := listSwap_perm a (i + 1) (rnd (i + 1) % (i + 2)) h hj
      have hlen : (listSwap a (i + 1) (rnd (i + 1) % (i + 2))).length = a.length := by
        simp [listSwap]
      have : i < (listSwap a (i + 1) (rnd (i + 1) % (i + 2))).length := by omega
      exact (ih _ this).trans hswap

/-- Fisher–Yates permutes any list, whatever the random draws. -/
theorem fisherYates_perm (rnd : Nat → Nat) (a : List Nat) :
    (fisherYates rnd a).Perm a := by
  cases a with
  | nil => exact List.Perm.refl _
  | cons x t =>
      exact fyLoop_perm rnd t.length (x :: t) (by simp)

/-- Removing the single occurrence of `a` is the same as filtering it out. -/
theorem erase_eq_filter_ne_of_count_one :
    ∀ (l : List Nat) (a : Nat), l.count a = 1 →
      l.erase a = l.filter (fun x => x ≠ a) := by
  intro l a
  induction l with
  | nil => intro h; simp at h
  | cons x t ih =>
      intro h
      by_cases hx : x = a
      · subst hx
        have ht : t.count x = 0 := by
          rw [List.count_cons_self] at h
          omega
        have hnot : x ∉ t := by
          rw [← List.count_pos_iff]
          omega
        rw [List.erase_cons_head]
        rw [List.filter_cons_of_neg (by simp)]
        symm
        apply List.filter_eq_self.mpr
        intro b hb
        simp only [ne_eq, decide_eq_true_eq]
        intro hba
        exact hnot (hba ▸ hb)
      · have ht : t.count a = 1 := by
          rwa [List.count_cons_of_ne (Ne.symm hx)] at h
        rw [List.erase_cons_tail (by simpa using hx)]
        rw [List.filter_cons_of_pos (by simpa using hx)]
        rw [ih ht]

/-! ### C5 -/

/-- C5 (corrected): the claim fails as universally stated — with shuffle
on and a context not containing the selected id exactly once, the produced
queue is not a permutation of the context (here the id is absent from the
context): the first element is still the selected id, but the queue is not
a permutation. -/
theorem c5_shuffle_counterexample :
    (createPlayQueue true (fun _ => 0) 5 [1, 2]).head? = some 5 ∧
    ¬ (createPlayQueue true (fun _ => 0) 5 [1, 2]).Perm [1, 2] := by
  constructor
  · rfl
  · intro h
    have hl := h.length_eq
    revert hl
    decide

/-- C5 (amended): with shuffle enabled, the produced queue always has the
selected id as its first element, and it is a permutation of the supplied
context whenever the selected id occurs exactly once in that context. -/
theorem c5_shuffle_pins_and_permutes (rnd : Nat → Nat) (songId : Nat)
    (ctx : List Nat) (h : ctx.count songId = 1) :
    (createPlayQueue true rnd songId ctx).head? = some songId ∧
    (createPlayQueue true rnd songId ctx).Perm ctx := by
  constructor
  · simp [createPlayQueue]
  · have hmem : songId ∈ ctx := by
      rw [← List.count_pos_iff]
      omega
    have hfy : (fisherYates rnd (ctx.filter (fun id => id ≠ songId))).Perm
        (ctx.filter (fun id => id ≠ songId)) := fisherYates_perm _ _
    have herase : ctx.erase songId = ctx.filter (fun x => x ≠ songId) :=
      erase_eq_filter_ne_of_count_one ctx songId h
    have hcons : (songId :: ctx.erase songId).Perm ctx :=
      (List.perm_cons_erase hmem).symm
    simp only [createPlayQueue, if_true]
    have step1 : (songId :: fisherYates rnd (ctx.filter (fun id => id ≠ songId))).Perm
        (songId :: ctx.filter (fun id => id ≠ songId)) := hfy.cons songId
    have step2 : songId :: ctx.filter (fun x => x ≠ songId) =
        songId :: ctx.erase songId := by rw [herase]
    exact (step2 ▸ step1).trans hcons

/-- Witness for C5's amended theorem on a concrete context. -/
theorem c5_shuffle_pins_and_permutes_witness :
    (createPlayQueue true (fun _ => 1) 2 [1, 2, 3]).head? = some 2 ∧
    (createPlayQueue true (fun _ => 1) 2 [1, 2, 3]).Perm [1, 2, 3] :=
  c5_shuffle_pins_and_permutes (fun _ => 1) 2 [1, 2, 3] (by decide)

/-! ### C7 -/

/-- Work sessions in the middle of a cycle: two session ends (the work
session's, then the short break's) advance `k` work intervals to `k + 1`. -/
theorem handleSessionEnd_two_steps (fs : FocusSettingsM) (k : Nat)
    (h : k + 1 < fs.longBreakInterval) :
    (handleSessionEnd fs)^[2] (workSessionState fs k) =
      workSessionState fs (k + 1) := by
  have h1 : handleSessionEnd fs (workSessionState fs k) =
      { isActive := fs.autoStart, sessionType := .shortBreak,
        timeRemaining := fs.shortBreakMinutes * 60,
        workIntervalsInCycle := k + 1 } := by
    simp [handleSessionEnd, workSessionState, sessionMinutes, Nat.not_le.mpr h]
  rw [Function.iterate_succ_apply, Function.iterate_one, h1]
  simp [handleSessionEnd, workSessionState, sessionMinutes]

/-- Iterating session ends from the start of a cycle: after `2k` session
ends (`k` work sessions and `k` short breaks completed, `k` below the long
break threshold) the timer is starting the cycle's `k`-th work interval. -/
theorem handleSessionEnd_iterate_work (fs : FocusSettingsM) (act : Bool)
    (t : Nat) :
    ∀ k, 1 ≤ k → k < fs.longBreakInterval →
      (handleSessionEnd fs)^[2 * k]
          { isActive := act, sessionType := .work, timeRemaining := t,
            workIntervalsInCycle := 0 } = workSessionState fs k := by
  intro k
  induction k with
  | zero => omega
  | succ k ih =>
      intro _ hlt
      by_cases hk : k = 0
      · subst hk
        have h2 : (2 : Nat) * 1 = 2 := by norm_num
        rw [h2]
        have h1 : handleSessionEnd fs
            { isActive := act, sessionType := .work, timeRemaining := t,
              workIntervalsInCycle := 0 } =
            { isActive := fs.autoStart, sessionType := .shortBreak,
              timeRemaining := fs.shortBreakMinutes * 60,
              workIntervalsInCycle := 1 } := by
          simp [handleSessionEnd, sessionMinutes, Nat.not_le.mpr hlt]
        rw [Function.iterate_succ_apply, Function.iterate_one, h1]
        simp [handleSessionEnd, workSessionState, sessionMinutes]
      · have hk1 : 1 ≤ k := by omega
        have hklt : k < fs.longBreakInterval := by omega
        have hsplit : 2 * (k + 1) = 2 + 2 * k := by ring
        rw [hsplit, Function.iterate_add_apply, ih hk1 hklt]
        exact handleSessionEnd_two_steps fs k hlt

/-- C7 (confirmed): at session end the session type advances
deterministically — a completed work session goes to `shortBreak` when
`workIntervalsInCycle + 1` is below `longBreakInterval` and otherwise to
`longBreak` with the counter reset to 0; every completed break goes back
to `work` — and hence, starting a cycle, after exactly
`longBreakInterval` completed work sessions (interleaved with their short
breaks, `2·longBreakInterval - 1` session ends in all) the counter is back
to 0 and the session is `longBreak`. -/
theorem c7_session_cycling (fs : FocusSettingsM) :
    (∀ st, st.sessionType = .work →
      handleSessionEnd fs st =
        (if st.workIntervalsInCycle + 1 < fs.longBreakInterval then
          { isActive := fs.autoStart, sessionType := .shortBreak,
            timeRemaining := fs.shortBreakMinutes * 60,
            workIntervalsInCycle := st.workIntervalsInCycle + 1 }
        else
          { isActive := fs.autoStart, sessionType := .longBreak,
            timeRemaining := fs.longBreakMinutes * 60,
            workIntervalsInCycle := 0 })) ∧
    (∀ st, st.sessionType = .shortBreak ∨ st.sessionType = .longBreak →
      handleSessionEnd fs st =
        { isActive := fs.autoStart, sessionType := .work,
          timeRemaining := fs.workMinutes * 60,
          workIntervalsInCycle := st.workIntervalsInCycle }) ∧
    (∀ (act : Bool) (t : Nat), 1 ≤ fs.longBreakInterval →
      (handleSessionEnd fs)^[2 * fs.longBreakInterval - 1]
          { isActive := act, sessionType := .work, timeRemaining := t,
            workIntervalsInCycle := 0 } =
        { isActive := fs.autoStart, sessionType := .longBreak,
          timeRemaining := fs.longBreakMinutes * 60,
          workIntervalsInCycle := 0 }) := by
  refine ⟨?_, ?_, ?_⟩
  · intro st hw
    by_cases h : st.workIntervalsInCycle + 1 < fs.longBreakInterval
    · simp [handleSessionEnd, hw, sessionMinutes, Nat.not_le.mpr h, h]
    · simp [handleSessionEnd, hw, sessionMinutes, Nat.le_of_not_lt h, h]
  · intro st hb
    rcases hb with hb | hb <;> simp [handleSessionEnd, hb, sessionMinutes]
  · intro act t hN
    by_cases hN1 : fs.longBreakInterval = 1
    · rw [hN1]
      norm_num
      simp [handleSessionEnd, sessionMinutes, hN1]
    · have hN2 : 2 ≤ fs.longBreakInterval := by omega
      have hsplit : 2 * fs.longBreakInterval - 1 =
          2 * (fs.longBreakInterval - 1) + 1 := by omega
      rw [hsplit, Function.iterate_succ_apply',
        handleSessionEnd_iterate_work fs act t (fs.longBreakInterval - 1)
          (by omega) (by omega)]
      have : fs.longBreakInterval - 1 + 1 ≥ fs.longBreakInterval := by omega
      simp [handleSessionEnd, workSessionState, sessionMinutes, this]

/-- Witness for C7 with the default settings (`longBreakInterval = 4`):
seven session ends bring the timer from the cycle start to the long
break. -/
theorem c7_session_cycling_witness :
    (handleSessionEnd
        { workMinutes := 25, shortBreakMinutes := 5, longBreakMinutes := 15,
          longBreakInterval := 4, tickingSound := false,
          fullscreenBreak := true, autoStart := true })^[2 * 4 - 1]
        { isActive := false, sessionType := .work, timeRemaining := 1500,
          workIntervalsInCycle := 0 } =
      { isActive := true, sessionType := .longBreak,
        timeRemaining := 15 * 60, workIntervalsInCycle := 0 } :=
  (c7_session_cycling _).2.2 false 1500 (by decide)

/-! ### C8 -/

/-- C8 (corrected): the claim fails for a queue that repeats a track id:
in `[1, 2, 1]` with current track 2 (position 1, neither first nor last)
and playback position 0 throughout, `next()` moves to the trailing 1,
but `prev()` then finds the *first* occurrence of 1 and treats it as the
queue head (no-op with repeat off) — the original track is not restored,
even though every stated precondition other than uniqueness holds. -/
theorem c8_duplicate_queue_counterexample :
    ({ playQueue := [1, 2, 1], currentTrackId := some 2, repeatMode := .off,
       currentTime := 0 } : PlayerState).currentTrackId =
      ([1, 2, 1] : List Nat)[1]? ∧
    (handleNextState
        { playQueue := [1, 2, 1], currentTrackId := some 2,
          repeatMode := .off, currentTime := 0 }).currentTime ≤ 3 ∧
    ¬ (handlePrevState (handleNextState
        { playQueue := [1, 2, 1], currentTrackId := some 2,
          repeatMode := .off, currentTime := 0 })).currentTrackId =
      some 2 := by
  refine ⟨rfl, by decide, by decide⟩

/-- C8 (amended): for every duplicate-free queue and current track at a
non-boundary position, `next()` followed by `prev()` restores the original
current track, provided the playback position when `prev()` runs is at
most 3 seconds (otherwise `prev()` merely reseeks to 0). -/
theorem c8_next_prev_roundtrip (s : PlayerState) (i : Nat)
    (hnd : s.playQueue.Nodup) (hi : s.currentTrackId = s.playQueue[i]?)
    (h0 : 0 < i) (hlast : i < s.playQueue.length - 1)
    (ht : (handleNextState s).currentTime ≤ 3) :
    (handlePrevState (handleNextState s)).currentTrackId =
      s.currentTrackId := by
  obtain ⟨q, cur, rep, time⟩ := s
  dsimp only at hnd hi hlast ht ⊢
  have hlen : i + 1 < q.length := by omega
  have hilen : i < q.length := by omega
  have hi' : cur = some (q[i]) := by
    rw [hi, List.getElem?_eq_getElem hilen]
  subst hi'
  have hmem : q[i] ∈ q := List.getElem_mem hilen
  have hqnil : q ≠ [] := by
    intro hq
    rw [hq] at hilen
    simp at hilen
  have hne : ¬ (q.isEmpty = true) := by
    simpa [List.isEmpty_iff] using hqnil
  have hidx : q.indexOf (q[i]) = i := List.indexOf_getElem hnd i hilen
  have hnot_last : ¬ (i = q.length - 1) := by omega
  have hnext : handleNextState ⟨q, some q[i], rep, time⟩ =
      ⟨q, q[i + 1]?, rep, time⟩ := by
    show (if q.isEmpty then _ else _) = _
    rw [if_neg hne, if_pos hmem]
    simp only [hidx]
    rw [if_neg hnot_last]
  rw [hnext] at ht ⊢
  have hnext_id : (q[i + 1]? : Option Nat) = some (q[i + 1]) :=
    List.getElem?_eq_getElem hlen
  have hmem1 : q[i + 1] ∈ q := List.getElem_mem hlen
  have hidx1 : q.indexOf (q[i + 1]) = i + 1 := List.indexOf_getElem hnd (i + 1) hlen
  have hnt : ¬ (3 < time) := not_lt.mpr ht
  have hne0 : ¬ (i + 1 = 0) := by omega
  show (handlePrevState ⟨q, q[i + 1]?, rep, time⟩).currentTrackId = some q[i]
  rw [hnext_id]
  simp only [handlePrevState]
  rw [if_neg hnt, if_neg hne, if_pos hmem1]
  simp only [hidx1]
  rw [if_neg hne0]
  show q[i + 1 - 1]? = some q[i]
  simp only [Nat.add_sub_cancel]
  exact List.getElem?_eq_getElem hilen

/-- Witness for C8 at the middle of a three-track queue. -/
theorem c8_next_prev_roundtrip_witness :
    (handlePrevState (handleNextState
        { playQueue := [4, 5, 6], currentTrackId := some 5,
          repeatMode := .off, currentTime := 0 })).currentTrackId =
      some 5 :=
  c8_next_prev_roundtrip
    { playQueue := [4, 5, 6], currentTrackId := some 5, repeatMode := .off,
      currentTime := 0 }
    1 (by decide) rfl (by decide) (by decide) (by decide)

/-! ### C1 -/

/-- C1 (corrected): entering the Focus view pauses the transport — it is
false that entering the Bounce view merely pauses: at a concrete playing
state with `currentTime = 42`, invoking the Bounce menu action does not
preserve the playback position (it resets it to 0). -/
theorem c1_bounce_stops_counterexample :
    ¬ ((bounceMenuTransport
        { isPlaying := true, currentTime := 42, duration := 180,
          srcAttached := true, currentTrackId := some 7,
          playQueue := [7, 8] }).currentTime = 42) := by
  decide

/-- C1 (amended): for every state in which music is playing, the Focus
menu action pauses the transport (`isPlaying` becomes false; position,
duration, source, current track and queue preserved), while the Bounce
menu action stops it (`isPlaying` false, position and duration reset to 0,
source detached) — the current track id and queue are still preserved, but
the playback position is not. -/
theorem c1_focus_pauses_bounce_stops (s : TransportState)
    (h : s.isPlaying = true) :
    ((focusMenuTransport s).isPlaying = false ∧
     (focusMenuTransport s).currentTime = s.currentTime ∧
     (focusMenuTransport s).duration = s.duration ∧
     (focusMenuTransport s).srcAttached = s.srcAttached ∧
     (focusMenuTransport s).currentTrackId = s.currentTrackId ∧
     (focusMenuTransport s).playQueue = s.playQueue) ∧
    ((bounceMenuTransport s).isPlaying = false ∧
     (bounceMenuTransport s).currentTime = 0 ∧
     (bounceMenuTransport s).duration = 0 ∧
     (bounceMenuTransport s).srcAttached = false ∧
     (bounceMenuTransport s).currentTrackId = s.currentTrackId ∧
     (bounceMenuTransport s).playQueue = s.playQueue) := by
  simp [focusMenuTransport, bounceMenuTransport, pauseTransport, stopTransport, h]

/-- Witness for C1's amended theorem at a concrete playing state. -/
theorem c1_focus_pauses_bounce_stops_witness :
    ((focusMenuTransport playingState).isPlaying = false ∧
     (focusMenuTransport playingState).currentTime = playingState.currentTime ∧
     (focusMenuTransport playingState).duration = playingState.duration ∧
     (focusMenuTransport playingState).srcAttached = playingState.srcAttached ∧
     (focusMenuTransport playingState).currentTrackId = playingState.currentTrackId ∧
     (focusMenuTransport playingState).playQueue = playingState.playQueue) ∧
    ((bounceMenuTransport playingState).isPlaying = false ∧
     (bounceMenuTransport playingState).currentTime = 0 ∧
     (bounceMenuTransport playingState).duration = 0 ∧
     (bounceMenuTransport playingState).srcAttached = false ∧
     (bounceMenuTransport playingState).currentTrackId = playingState.currentTrackId ∧
     (bounceMenuTransport playingState).playQueue = playingState.playQueue) :=
  c1_focus_pauses_bounce_stops playingState rfl

/-! ### C3 -/

/-- C3 (corrected): the claim fails on the code at a stored record that is
present but carries no playable media blob: the load effect performs no
action at all (neither `play` nor the self-healing `next()`). -/
theorem c3_blobless_record_counterexample :
    trackLoadOutcome (.ok (some { fileBlob := none })) = .noAction ∧
    ¬ trackLoadOutcome (.ok (some { fileBlob := none })) = .skip := by
  decide

/-- C3 (amended): a missing song record and a failed storage read are both
treated as 'track ended' — the transport invokes `next()` (skips) instead
of surfacing a fatal error; a record that is present but has no media blob
however produces no action (neither play nor skip), and a record with a
blob is played. -/
theorem c3_load_failure_skips (read : Except Unit (Option StoredSong)) :
    (read = .ok none → trackLoadOutcome read = .skip) ∧
    (∀ e, read = .error e → trackLoadOutcome read = .skip) ∧
    (∀ song, read = .ok (some song) → song.fileBlob = none →
      trackLoadOutcome read = .noAction) ∧
    (∀ song blob, read = .ok (some song) → song.fileBlob = some blob →
      trackLoadOutcome read = .play blob) := by
  refine ⟨?_, ?_, ?_, ?_⟩
  · rintro rfl; rfl
  · rintro e rfl; rfl
  · rintro song rfl hb; simp [trackLoadOutcome, hb]
  · rintro song blob rfl hb; simp [trackLoadOutcome, hb]

/-- Witness for C3's amended theorem: a missing record skips. -/
theorem c3_load_failure_skips_witness :
    trackLoadOutcome (.ok none) = .skip :=
  (c3_load_failure_skips (.ok none)).1 rfl

/-! ### C9 -/

/-- C9 (confirmed): for every press/release timing, exactly one of the two
select actions runs — a release before the 500 ms threshold performs the
normal select action only; if the timer fires first, the long-press
(quick-add) action runs and the release is a no-op for selection. -/
theorem c9_select_race_exactly_one (t : Nat) :
    (t < 500 → selRun false (selEvents t) = [.select]) ∧
    (500 ≤ t → selRun false (selEvents t) = [.longPress]) ∧
    (selRun false (selEvents t) = [.select] ∨
     selRun false (selEvents t) = [.longPress]) := by
  by_cases h : t < 500
  · refine ⟨fun _ => ?_, fun h2 => absurd h2 (by omega), .inl ?_⟩ <;>
      simp [selEvents, h, selRun, selStep]
  · refine ⟨fun h2 => absurd h2 h, fun _ => ?_, .inr ?_⟩ <;>
      simp [selEvents, h, selRun, selStep]

/-- Witness for C9 at both sides of the threshold. -/
theorem c9_select_race_exactly_one_witness :
    selRun false (selEvents 100) = [.select] ∧
    selRun false (selEvents 600) = [.longPress] :=
  ⟨(c9_select_race_exactly_one 100).1 (by decide),
   (c9_select_race_exactly_one 600).2.1 (by decide)⟩

/-! ### C10 -/

/-- C10 (confirmed): in a focus-setting edit view entered with an in-range
value, the value is clamped on every scroll, so after any sequence of
scroll inputs — hence at the moment back/menu or select commits it — it
lies in 1..10 for `longBreakInterval` and 1..90 for the minute settings. -/
theorem c10_edit_value_clamped (key : FocusKey) (value : Int)
    (dirs : List Int) (h : editInRange key value) :
    editInRange key (editValueAfter key value dirs) := by
  induction dirs generalizing value with
  | nil => exact h
  | cons d rest ih =>
      apply ih
      unfold editScrollStep editInRange
      rcases key <;>
        simp only [reduceCtorEq, if_false, if_true, reduceIte] <;>
        constructor <;>
        · rw [Int.max_def, Int.min_def]
          split <;> split <;> omega

/-- Witness for C10: 25-minute work duration scrolled three times. -/
theorem c10_edit_value_clamped_witness :
    editInRange .workMinutes (editValueAfter .workMinutes 25 [1, -1, 1]) :=
  c10_edit_value_clamped .workMinutes 25 [1, -1, 1] (by constructor <;> decide)

/-! ### C2 -/

/-- C2 (corrected): computing the menu for the `'songs'` view is not
side-effect-free — `songs.sort(...)` (line 1520) reorders the songs state
array in place, so at a snapshot whose songs are not already
title-sorted, the computation changes the snapshot. -/
theorem c2_songs_sort_mutates_counterexample :
    ¬ ((menuResolve .songs unsortedState).2 = unsortedState) := by
  decide

/-- C2 (amended): menu computation is deterministic (equal snapshots give
the same ordered list), and it leaves the snapshot — songs, playlists, and
all subsystem state it reads — unchanged for every view except `'songs'`,
where the songs array is sorted in place: a permutation of the original
songs, with every other component of the snapshot unchanged. -/
theorem c2_resolver_deterministic_frame (v : ViewId) (st : ResolverState) :
    (∀ st2, st2 = st → (menuResolve v st2).1 = (menuResolve v st).1) ∧
    (v ≠ .songs → (menuResolve v st).2 = st) ∧
    ((menuResolve .songs st).2.songs.Perm st.songs ∧
     (menuResolve .songs st).2.allPlaylists = st.allPlaylists ∧
     (menuResolve .songs st).2.searchQuery = st.searchQuery ∧
     (menuResolve .songs st).2.shuffleMode = st.shuffleMode ∧
     (menuResolve .songs st).2.repeatMode = st.repeatMode ∧
     (menuResolve .songs st).2.currentTrackId = st.currentTrackId ∧
     (menuResolve .songs st).2.bouncePhase = st.bouncePhase ∧
     (menuResolve .songs st).2.focusActive = st.focusActive ∧
     (menuResolve .songs st).2.focusSettings = st.focusSettings ∧
     (menuResolve .songs st).2.bodyColor = st.bodyColor ∧
     (menuResolve .songs st).2.wheelColor = st.wheelColor) := by
  refine ⟨fun st2 h => by rw [h], fun hv => ?_, ?_⟩
  · cases v <;> first | rfl | exact absurd rfl hv
  · refine ⟨List.perm_insertionSort _ _, rfl, rfl, rfl, rfl, rfl, rfl, rfl,
      rfl, rfl, rfl⟩

/-- Witness for C2's amended theorem at the `main` view over a concrete
snapshot. -/
theorem c2_resolver_deterministic_frame_witness :
    (∀ st2, st2 = unsortedState →
      (menuResolve .main st2).1 = (menuResolve .main unsortedState).1) ∧
    ((menuResolve .main unsortedState).2 = unsortedState) ∧
    ((menuResolve .songs unsortedState).2.songs.Perm unsortedState.songs) :=
  ⟨(c2_resolver_deterministic_frame ViewId.main unsortedState).1,
   (c2_resolver_deterministic_frame ViewId.main unsortedState).2.1 (by decide),
   (c2_resolver_deterministic_frame ViewId.main unsortedState).2.2.1⟩

/-! ### C4 -/

/-- C4 (code bug): the claimed invariant — the navigation stack always
contains at least one frame — is violated by the code: the clear-library
empty-library (and error) path schedules an *unguarded* `s.slice(0, -1)`
on a 2000 ms timeout (lines 1322-1324, 1361-1363) while BACK stays
active.  The trace derived here is: boot, replace to `[main]` (library
present), push Settings, push Library Management, press 'Clear Library'
with the library empty (clearing view pushed, pop scheduled), press BACK
three times within the 2 seconds (depth 4 → 3 → 2 → 1), timeout fires:
`[main].slice(0, -1) = []` — the empty stack is reachable, and the next
render reads `currentView.id` of an undefined frame. -/
theorem c4_delayed_pop_empties_stack :
    navReachable
      { stack := [], pendingClearPops := 0, pendingResetPops := 0,
        pendingLoadReplaces := 0 } := by
  have h1 : navReachable ⟨[⟨.main, 0⟩], 0, 0, 0⟩ :=
    Relation.ReflTransGen.single
      (NavStep.initReplace _ .main 0 0 0 (Or.inl rfl))
  have h2 : navReachable ⟨[⟨.settings, 0⟩, ⟨.main, 0⟩], 0, 0, 0⟩ :=
    h1.tail (NavStep.selectPush ⟨.main, 0⟩ .settings [] 0 0 0 rfl)
  have h3 : navReachable
      ⟨[⟨.libraryManagement, 0⟩, ⟨.settings, 0⟩, ⟨.main, 0⟩], 0, 0, 0⟩ :=
    h2.tail (NavStep.selectPush ⟨.settings, 0⟩ .libraryManagement
      [⟨.main, 0⟩] 0 0 0 rfl)
  have h4 : navReachable
      ⟨[⟨.clearingLibrary, 0⟩, ⟨.libraryManagement, 0⟩, ⟨.settings, 0⟩,
        ⟨.main, 0⟩], 1, 0, 0⟩ :=
    h3.tail (NavStep.clearInvokeEmpty ⟨.libraryManagement, 0⟩
      [⟨.settings, 0⟩, ⟨.main, 0⟩] 0 0 0 rfl)
  have h5 : navReachable
      ⟨[⟨.libraryManagement, 0⟩, ⟨.settings, 0⟩, ⟨.main, 0⟩], 1, 0, 0⟩ :=
    h4.tail (NavStep.backPop [⟨.clearingLibrary, 0⟩, ⟨.libraryManagement, 0⟩,
      ⟨.settings, 0⟩, ⟨.main, 0⟩] 1 0 0)
  have h6 : navReachable ⟨[⟨.settings, 0⟩, ⟨.main, 0⟩], 1, 0, 0⟩ :=
    h5.tail (NavStep.backPop [⟨.libraryManagement, 0⟩, ⟨.settings, 0⟩,
      ⟨.main, 0⟩] 1 0 0)
  have h7 : navReachable ⟨[⟨.main, 0⟩], 1, 0, 0⟩ :=
    h6.tail (NavStep.backPop [⟨.settings, 0⟩, ⟨.main, 0⟩] 1 0 0)
  exact h7.tail (NavStep.clearPopFire [⟨.main, 0⟩] 0 0 0)

/-! ### C6 -/

/-- A hit repositions the ball to distance exactly `47.5 - 0.1` from the
center. -/
theorem distFromCenter_hitBall (paddleAngle : ℝ) (nb : BallState) :
    distFromCenter (hitBall paddleAngle nb) = 47.5 - 0.1 := by
  unfold distFromCenter hitBall
  simp only
  have h1 : ((47.5 - 0.1 : ℝ) * Real.cos (atan2 nb.y nb.x)) *
        ((47.5 - 0.1) * Real.cos (atan2 nb.y nb.x)) +
      ((47.5 - 0.1) * Real.sin (atan2 nb.y nb.x)) *
        ((47.5 - 0.1) * Real.sin (atan2 nb.y nb.x)) =
      (47.5 - 0.1) ^ 2 *
        (Real.sin (atan2 nb.y nb.x) ^ 2 + Real.cos (atan2 nb.y nb.x) ^ 2) := by
    ring
  rw [h1, Real.sin_sq_add_cos_sq, mul_one, Real.sqrt_sq (by norm_num)]

/-- C6 (confirmed): on every tick in the playing phase, after integrating
the ball's position, either the ball stays within the arena radius (no
boundary event: the tick only moves the ball), or the crossing resolves to
exactly one of a hit — score up by exactly 1, ballSpeed multiplied by the
fixed 1.03 factor capped at 2.5, ball repositioned just inside the
boundary — or a miss — transition to game-over — never both, never
neither. -/
theorem c6_bounce_tick_trichotomy (s : BounceGameState)
    (h : s.gameState = .playing) : tickExactlyOne s := by
  rcases le_or_lt (distFromCenter (integratedBall s)) 47.5 with hd | hd
  · left
    refine ⟨⟨hd, ?_⟩, fun hh => absurd hh.1 (not_lt.mpr hd),
      fun hm => absurd hm.1 (not_lt.mpr hd)⟩
    unfold bounceTick
    rw [if_pos h, if_neg (not_lt.mpr hd)]
  · have htick0 : bounceTick s =
        (if isHit s.paddleAngle (integratedBall s) then
          { s with
            score := s.score + 1,
            ballSpeed := min 2.5 (s.ballSpeed * 1.03),
            ball := hitBall s.paddleAngle (integratedBall s) }
        else
          { s with
            gameState := .gameOver,
            highScore := if s.highScore < s.score then s.score else s.highScore,
            ball := integratedBall s }) := by
      unfold bounceTick
      rw [if_pos h, if_pos hd]
    cases hhit : isHit s.paddleAngle (integratedBall s) with
    | true =>
        have htick : bounceTick s =
            { s with
              score := s.score + 1,
              ballSpeed := min 2.5 (s.ballSpeed * 1.03),
              ball := hitBall s.paddleAngle (integratedBall s) } := by
          rw [htick0, if_pos hhit]
        right; left
        refine ⟨⟨hd, hhit, ?_, ?_, ?_, ?_, ?_⟩,
          fun hn => absurd hn.1 (not_le.mpr hd),
          fun hm => by rw [hm.2.1] at hhit; exact Bool.noConfusion hhit⟩
        · rw [htick]
        · rw [htick]
        · rw [htick]; exact h
        · rw [htick]; exact distFromCenter_hitBall _ _
        · rw [htick, distFromCenter_hitBall]; norm_num
    | false =>
        have htick : bounceTick s =
            { s with
              gameState := .gameOver,
              highScore := if s.highScore < s.score then s.score else s.highScore,
              ball := integratedBall s } := by
          rw [htick0, if_neg (by rw [hhit]; exact Bool.false_ne_true)]
        right; right
        refine ⟨⟨hd, hhit, ?_, ?_, ?_, ?_⟩,
          fun hn => absurd hn.1 (not_le.mpr hd),
          fun hh => by rw [hh.2.1] at hhit; exact Bool.noConfusion hhit⟩
        · rw [htick]
        · rw [htick]
        · rw [htick]
          show (if s.highScore < s.score then s.score else s.highScore) =
            max s.highScore s.score
          rcases Nat.lt_or_ge s.highScore s.score with hlt | hge
          · rw [if_pos hlt]; omega
          · rw [if_neg (by omega)]; omega
        · rw [htick]

/-- Witness for C6 at a concrete playing state (ball at the center). -/
theorem c6_bounce_tick_trichotomy_witness :
    tickExactlyOne
      { gameState := .playing, score := 0, highScore := 0, paddleAngle := 0,
        ball := { x := 0, y := 0, dx := 0, dy := 0 }, ballSpeed := 0.8 } :=
  c6_bounce_tick_trichotomy _ rfl

end ReactPod
